import Mathlib

/-!
Verification development for the Network-Logging repository.

The definitions below are shallow embeddings of the Python sources:
  * `src/traffic_monitor.py`  — flow aggregation (`TrafficMonitor.process_packet`,
    `TrafficMonitor._is_local_ip`, `TrafficMonitor._flush_cache`)
  * `src/packet_capture.py`   — `PacketCapture._process_traffic_packet`
  * `src/database/postgresql.py` and `src/database/sqlite.py` — `insert_dns_lookup`,
    `get_domain_by_ip`, `upsert_traffic_flow`, `check_threat_indicator`
  * `src/threat_intel.py`     — `ThreatIntelligenceManager.check_ip`, `update_feed`

Machine ints are modelled as `Nat`/`Int`; timestamps as epoch seconds.
-/

/-! ### IPv4 parsing and the locality predicate
Model of Python `ipaddress.ip_address` for dotted-quad IPv4 strings, and of
`TrafficMonitor._is_local_ip` (src/traffic_monitor.py lines 174-203). -/

/-- An IPv4 address as four octets. -/
structure IPv4 where
  a : Nat
  b : Nat
  c : Nat
  d : Nat
deriving DecidableEq, Repr

/-- Split a character list at every dot, like Python `str.split` on a dot. -/
def splitOnDot : List Char → List Char → List (List Char)
  | [], acc => [acc.reverse]
  | c :: rest, acc =>
    if c = '.' then acc.reverse :: splitOnDot rest [] else splitOnDot rest (c :: acc)

/-- The dot-separated parts of a string. -/
def dotParts (s : String) : List (List Char) := splitOnDot s.data []

/-- All characters are decimal digits. -/
def allDigits (cs : List Char) : Bool := cs.all (fun c => c.isDigit)

/-- Numeric value of a decimal digit string. -/
def digitsVal (cs : List Char) : Nat := cs.foldl (fun n c => 10 * n + (c.toNat - 48)) 0

/-- One octet of a dotted quad, with the checks `ipaddress` performs:
non-empty, decimal digits only, at most 3 characters, no leading zero,
value at most 255. -/
def parseOctet? (cs : List Char) : Option Nat :=
  if cs.isEmpty then none
  else if !allDigits cs then none
  else if cs.length > 3 then none
  else if cs.length > 1 && cs.head? = some '0' then none
  else if digitsVal cs ≤ 255 then some (digitsVal cs) else none

/-- Model of `ipaddress.ip_address` restricted to IPv4 dotted-quad inputs
(the repository only feeds it IPv4 text in the modelled paths); `none`
models the `ValueError` branch. -/
def parseIPv4? (s : String) : Option IPv4 :=
  match dotParts s with
  | [p1, p2, p3, p4] =>
    match parseOctet? p1, parseOctet? p2, parseOctet? p3, parseOctet? p4 with
    | some a, some b, some c, some d => some ⟨a, b, c, d⟩
    | _, _, _, _ => none
  | _ => none

/-- CPython `IPv4Address.is_private`: membership in the IANA private-use
network list (0.0.0.0/8, 10/8, 127/8, 169.254/16, 172.16/12, 192.0.0.0/29,
192.0.0.170/31, 192.0.2.0/24, 192.168/16, 198.18/15, 198.51.100/24,
203.0.113/24, 240/4 and 255.255.255.255). -/
def ipv4IsPrivate (ip : IPv4) : Bool :=
  ip.a == 0 || ip.a == 10 || ip.a == 127 ||
  (ip.a == 169 && ip.b == 254) ||
  (ip.a == 172 && 16 ≤ ip.b && ip.b ≤ 31) ||
  (ip.a == 192 && ip.b == 0 && ip.c == 0 && ip.d ≤ 7) ||
  (ip.a == 192 && ip.b == 0 && ip.c == 0 && (ip.d == 170 || ip.d == 171)) ||
  (ip.a == 192 && ip.b == 0 && ip.c == 2) ||
  (ip.a == 192 && ip.b == 168) ||
  (ip.a == 198 && (ip.b == 18 || ip.b == 19)) ||
  (ip.a == 198 && ip.b == 51 && ip.c == 100) ||
  (ip.a == 203 && ip.b == 0 && ip.c == 113) ||
  240 ≤ ip.a

/-- CPython `IPv4Address.is_loopback` (127.0.0.0/8). -/
def ipv4IsLoopback (ip : IPv4) : Bool := ip.a == 127

/-- CPython `IPv4Address.is_link_local` (169.254.0.0/16). -/
def ipv4IsLinkLocal (ip : IPv4) : Bool := ip.a == 169 && ip.b == 254

/-- CPython `IPv4Address.is_multicast` (224.0.0.0/4). -/
def ipv4IsMulticast (ip : IPv4) : Bool := 224 ≤ ip.a && ip.a ≤ 239

/-- The disjunction tested by `_is_local_ip` on a parsed address. -/
def ipv4IsLocal (ip : IPv4) : Bool :=
  ipv4IsPrivate ip || ipv4IsLoopback ip || ipv4IsLinkLocal ip || ipv4IsMulticast ip

/-- Python `int` on a decimal string (digits only; sign and whitespace
forms never occur in the dotted parts the fallback feeds it). -/
def pyInt? (cs : List Char) : Option Nat :=
  if !cs.isEmpty && allDigits cs then some (digitsVal cs) else none

/-- The manual fallback in `_is_local_ip` used when `ipaddress` raises:
split on dots, require 4 parts, test first-octet ranges; any `int`
failure yields `False` (src/traffic_monitor.py lines 186-203). -/
def fallbackIsLocal (s : String) : Bool :=
  match dotParts s with
  | [p1, p2, _, _] =>
    match pyInt? p1 with
    | none => false
    | some o1 =>
      if o1 = 10 then true
      else if o1 = 172 then
        match pyInt? p2 with
        | some o2 => decide (16 ≤ o2 ∧ o2 ≤ 31)
        | none => false
      else if o1 = 192 then
        match pyInt? p2 with
        | some o2 => o2 == 168
        | none => false
      else o1 == 127
  | _ => false

/-- `TrafficMonitor._is_local_ip`: parse with `ipaddress` and test
private/loopback/link-local/multicast; on a parse error fall back to the
manual first-octet test. -/
def is_local_ip (s : String) : Bool :=
  match parseIPv4? s with
  | some ip => ipv4IsLocal ip
  | none => fallbackIsLocal s

/-! ### The flow aggregator (`src/traffic_monitor.py`) -/

/-- The `traffic_data` dict handed to `TrafficMonitor.process_packet`.
`Option` models keys that may be absent or `None`; `packet_size` defaults
to 0 via `.get`, and `timestamp` is always supplied by the capture layer. -/
structure TrafficData where
  source_ip : Option String
  destination_ip : Option String
  destination_port : Option Nat
  source_port : Option Nat
  protocol : Option String
  packet_size : Nat
  timestamp : Nat
deriving DecidableEq, Repr

/-- Python truthiness of an optional string (`None` and the empty string
are falsy). -/
def truthyStr : Option String → Bool
  | none => false
  | some s => !s.isEmpty

/-- Python truthiness of an optional integer (`None` and 0 are falsy). -/
def truthyNat : Option Nat → Bool
  | none => false
  | some n => n != 0

/-- The canonical flow key `(client_ip, server_ip, server_port, protocol)`. -/
structure FlowKey where
  client_ip : String
  server_ip : String
  server_port : Nat
  protocol : String
deriving DecidableEq, Repr

/-- One value of the in-memory `flow_cache`. -/
structure FlowData where
  bytes_sent : Nat
  bytes_received : Nat
  packet_count : Nat
  first_seen : Nat
  last_update : Nat
  is_abnormal : Bool
deriving DecidableEq, Repr

/-- The in-memory flow cache, an insertion-ordered map as in Python. -/
abbrev FlowCache := List (FlowKey × FlowData)

/-- Look a key up in the cache (first entry with that key). -/
def cacheFind? : FlowCache → FlowKey → Option FlowData
  | [], _ => none
  | e :: rest, k => if e.1 = k then some e.2 else cacheFind? rest k

/-- Mutate the entry stored under a key, as the Python dict updates do. -/
def cacheUpdate (cache : FlowCache) (k : FlowKey) (f : FlowData → FlowData) : FlowCache :=
  cache.map (fun e => if e.1 = k then (e.1, f e.2) else e)

/-- `TrafficMonitor.process_packet` (src/traffic_monitor.py lines 32-172):
validate the five required fields by truthiness, classify the packet
direction, normalise to the canonical key and update the cache entry.
`now` models `datetime.utcnow()` (used for `last_update`); the periodic
flush trigger at the end of the Python function is modelled separately by
`flushCache`. -/
def processPacket (now : Nat) (td : TrafficData) (cache : FlowCache) : FlowCache :=
  if !(truthyStr td.source_ip && truthyStr td.destination_ip &&
       truthyNat td.destination_port && truthyNat td.source_port &&
       truthyStr td.protocol) then
    cache
  else
    match td.source_ip, td.destination_ip, td.destination_port, td.source_port, td.protocol with
    | some source_ip, some dest_ip, some dest_port, some source_port, some protocol =>
      let source_is_local := is_local_ip source_ip
      let dest_is_local := is_local_ip dest_ip
      -- classification yields the canonical key, is_outbound_packet, is_abnormal
      let cls : FlowKey × Bool × Bool :=
        if source_is_local && !dest_is_local then
          (⟨source_ip, dest_ip, dest_port, protocol⟩, true, false)
        else if dest_is_local && !source_is_local then
          (⟨dest_ip, source_ip, source_port, protocol⟩, false, false)
        else if source_is_local && dest_is_local then
          let source_is_ephemeral := decide (source_port ≥ 49152)
          let dest_is_ephemeral := decide (dest_port ≥ 49152)
          if source_is_ephemeral && !dest_is_ephemeral then
            (⟨source_ip, dest_ip, dest_port, protocol⟩, true, false)
          else if dest_is_ephemeral && !source_is_ephemeral then
            (⟨dest_ip, source_ip, source_port, protocol⟩, false, false)
          else if source_port < dest_port then
            (⟨source_ip, dest_ip, dest_port, protocol⟩, true, false)
          else
            (⟨dest_ip, source_ip, source_port, protocol⟩, false, false)
        else
          (⟨source_ip, dest_ip, dest_port, protocol⟩, true, true)
      let flow_key := cls.1
      let is_outbound_packet := cls.2.1
      let is_abnormal := cls.2.2
      let cache1 :=
        if (cacheFind? cache flow_key).isNone then
          cache ++ [(flow_key, ⟨0, 0, 0, td.timestamp, now, is_abnormal⟩)]
        else cache
      let cache2 :=
        if is_outbound_packet then
          cacheUpdate cache1 flow_key (fun d => { d with bytes_sent := d.bytes_sent + td.packet_size })
        else
          cacheUpdate cache1 flow_key (fun d => { d with bytes_received := d.bytes_received + td.packet_size })
      let cache3 := cacheUpdate cache2 flow_key (fun d => { d with packet_count := d.packet_count + 1 })
      let cache4 := cacheUpdate cache3 flow_key (fun d =>
        if td.timestamp < d.first_seen then { d with first_seen := td.timestamp } else d)
      let cache5 := cacheUpdate cache4 flow_key (fun d => { d with last_update := now })
      cacheUpdate cache5 flow_key (fun d => { d with is_abnormal := is_abnormal })
    | _, _, _, _, _ => cache

/-! ### Flow store and `_flush_cache`
The stored `traffic_flows` row, restricted to the counters the upsert
accumulates (`src/database/postgresql.py` lines 814-894: on conflict the
byte and packet counters are summed). -/

/-- Counters of a stored `traffic_flows` row. -/
structure FlowRow where
  bytes_sent : Nat
  bytes_received : Nat
  packet_count : Nat
deriving DecidableEq, Repr

/-- The persisted flow table, keyed by the canonical 4-tuple. -/
abbrev FlowStore := List (FlowKey × FlowRow)

/-- Row stored under a key (first row with that key). -/
def storeFind? : FlowStore → FlowKey → Option FlowRow
  | [], _ => none
  | e :: rest, k => if e.1 = k then some e.2 else storeFind? rest k

/-- Counter accumulation of `upsert_traffic_flow`: insert, or on conflict
sum `bytes_sent`, `bytes_received` and `packet_count` into the existing
row. -/
def upsertTrafficFlowCounters (st : FlowStore) (k : FlowKey) (d : FlowData) : FlowStore :=
  if (storeFind? st k).isSome then
    st.map (fun e =>
      if e.1 = k then
        (e.1, ⟨e.2.bytes_sent + d.bytes_sent, e.2.bytes_received + d.bytes_received,
               e.2.packet_count + d.packet_count⟩)
      else e)
  else
    st ++ [(k, ⟨d.bytes_sent, d.bytes_received, d.packet_count⟩)]

/-- The upsert loop inside `TrafficMonitor._flush_cache`: entries are
written in cache order; `fails k = true` models `upsert_traffic_flow`
raising a store error on that entry, which aborts the loop. Returns the
store after the writes that happened and whether the loop completed. -/
def flushEntries (fails : FlowKey → Bool) : List (FlowKey × FlowData) → FlowStore → FlowStore × Bool
  | [], st => (st, true)
  | e :: rest, st =>
    if fails e.1 then (st, false)
    else flushEntries fails rest (upsertTrafficFlowCounters st e.1 e.2)

/-- `TrafficMonitor._flush_cache` (src/traffic_monitor.py lines 205-258):
the whole loop runs inside one try/except; only when every upsert
succeeded is `self.flow_cache.clear()` reached, otherwise the exception
is logged and the entire cache is kept. Returns the new store and the new
cache. -/
def flushCache (fails : FlowKey → Bool) (cache : FlowCache) (st : FlowStore) : FlowStore × FlowCache :=
  match flushEntries fails cache st with
  | (st2, true) => (st2, [])
  | (st2, false) => (st2, cache)

/-! ### DNS lookup summary rows (`dns_lookups` table) -/

/-- A `dns_lookups` row, keyed `(domain, query_type)`; the
`query_timestamp` column is not read by any modelled operation and is
omitted. Timestamps are epoch seconds. -/
structure DnsLookupRow where
  domain : String
  query_type : String
  resolved_ips : List String
  first_seen : Int
  last_seen : Int
deriving DecidableEq, Repr

/-- The `dns_lookups` table. -/
abbrev DnsStore := List DnsLookupRow

/-- `SELECT ... WHERE domain = d AND query_type = q` (first row). -/
def findDnsLookup : DnsStore → String → String → Option DnsLookupRow
  | [], _, _ => none
  | r :: rest, d, q =>
    if r.domain = d ∧ r.query_type = q then some r else findDnsLookup rest d q

/-- `insert_dns_lookup` as implemented identically in
src/database/postgresql.py lines 605-650 and src/database/sqlite.py lines
233-276: read the existing row to preserve `first_seen`, then
`INSERT ... ON CONFLICT (domain, query_type) DO UPDATE SET resolved_ips,
last_seen` — the conflict update does not touch `first_seen`. -/
def insert_dns_lookup (st : DnsStore) (d q : String) (ips : List String)
    (timestamp : Int) (first_seen_arg : Option Int) : DnsStore :=
  let fs0 := first_seen_arg.getD timestamp
  match findDnsLookup st d q with
  | some _ =>
    st.map (fun r =>
      if r.domain = d ∧ r.query_type = q then
        { r with resolved_ips := ips, last_seen := timestamp }
      else r)
  | none => st ++ [⟨d, q, ips, fs0, timestamp⟩]

/-! ### `get_domain_by_ip` in the two backends -/

/-- The `WHERE` clause of the PostgreSQL `get_domain_by_ip`
(src/database/postgresql.py lines 707-738): jsonb containment of the ip,
`last_seen >= cutoff`, and, only when `before_timestamp` was passed,
`first_seen <= before_timestamp`. -/
def pgDomainEligible (ip : String) (cutoff : Int) (before : Option Int) (r : DnsLookupRow) : Bool :=
  r.resolved_ips.contains ip && decide (cutoff ≤ r.last_seen) &&
    (match before with
     | some t => decide (r.first_seen ≤ t)
     | none => true)

/-- `ORDER BY first_seen DESC LIMIT 1` over a result list (first row with
maximal `first_seen`). -/
def maxByFirstSeen : DnsStore → Option DnsLookupRow
  | [] => none
  | r :: rest =>
    match maxByFirstSeen rest with
    | none => some r
    | some m => if m.first_seen ≤ r.first_seen then some r else some m

/-- PostgreSQL `get_domain_by_ip(ip, days, before_timestamp)`. -/
def pg_get_domain_by_ip (st : DnsStore) (now : Int) (days : Int) (ip : String)
    (before_timestamp : Option Int) : Option String :=
  let cutoff := now - days * 86400
  (maxByFirstSeen (st.filter (pgDomainEligible ip cutoff before_timestamp))).map (fun r => r.domain)

/-- The JSON text stored in `resolved_ips` (`json.dumps` of a string
list). -/
def jsonArrayText (ips : List String) : String :=
  "[" ++ String.intercalate ", " (ips.map (fun s => "\"" ++ s ++ "\"")) ++ "]"

/-- Together with `charsContainsSub`: SQL `LIKE escaped-pattern` with a
pattern of the shape percent-ip-percent, i.e. substring containment. -/
def charsStartsWith : List Char → List Char → Bool
  | _, [] => true
  | [], _ :: _ => false
  | h :: t, p :: ps => h == p && charsStartsWith t ps

/-- Substring containment on character lists. -/
def charsContainsSub (pat : List Char) : List Char → Bool
  | [] => charsStartsWith [] pat
  | h :: t => charsStartsWith (h :: t) pat || charsContainsSub pat t

/-- `hay LIKE '%' || pat || '%'`. -/
def likeContains (hay pat : String) : Bool := charsContainsSub pat.data hay.data

/-- The `WHERE` clause of the SQLite `get_domain_by_ip`
(src/database/sqlite.py lines 332-353): a substring `LIKE` over the JSON
text of `resolved_ips` and `last_seen >= cutoff`. There is no
`before_timestamp` parameter and no `first_seen` constraint. -/
def sqliteDomainEligible (ip : String) (cutoff : Int) (r : DnsLookupRow) : Bool :=
  likeContains (jsonArrayText r.resolved_ips) ip && decide (cutoff ≤ r.last_seen)

/-- `ORDER BY last_seen DESC LIMIT 1` (first row with maximal
`last_seen`). -/
def maxByLastSeen : DnsStore → Option DnsLookupRow
  | [] => none
  | r :: rest =>
    match maxByLastSeen rest with
    | none => some r
    | some m => if m.last_seen ≤ r.last_seen then some r else some m

/-- SQLite `get_domain_by_ip(ip, days)` — no upper bound on `first_seen`. -/
def sqlite_get_domain_by_ip (st : DnsStore) (now : Int) (days : Int) (ip : String) : Option String :=
  let cutoff := now - days * 86400
  (maxByLastSeen (st.filter (sqliteDomainEligible ip cutoff))).map (fun r => r.domain)

/-! ### Threat indicators, `check_ip` (`src/threat_intel.py` lines 452-468) -/

/-- A `threat_indicators` row. -/
structure ThreatIndicator where
  feed_name : String
  indicator_type : String
  domain : Option String
  ip : Option String
deriving DecidableEq, Repr

/-- The ip branch of `check_threat_indicator` in both backends
(src/database/postgresql.py lines 1565-1601, src/database/sqlite.py lines
934-981): exact equality on the `ip` column with `indicator_type = 'ip'`,
first row. -/
def check_threat_indicator_ip : List ThreatIndicator → String → Option ThreatIndicator
  | [], _ => none
  | r :: rest, ip =>
    if r.indicator_type = "ip" ∧ r.ip = some ip then some r
    else check_threat_indicator_ip rest ip

/-- Dotted-quad text of an address (`str(ip_obj)`). -/
def ipv4ToString (ip : IPv4) : String :=
  toString ip.a ++ "." ++ toString ip.b ++ "." ++ toString ip.c ++ "." ++ toString ip.d

/-- `ThreatIntelligenceManager.check_ip`: normalise via
`ipaddress.ip_address` (returning `None` on `ValueError`) and query the
store for an exact match. There is no private/loopback/link-local/
multicast filter on this path. -/
def check_ip (st : List ThreatIndicator) (ip : String) : Option ThreatIndicator :=
  match parseIPv4? ip with
  | none => none
  | some q => check_threat_indicator_ip st (ipv4ToString q)

/-! ### `update_feed` (`src/threat_intel.py` lines 317-417) -/

/-- Side effects `update_feed` can perform after its gate checks. -/
inductive FeedEffect where
  | download
  | replaceIndicators
  | writeMeta
deriving DecidableEq, Repr

/-- Outcome of one `update_feed` call: the effects performed, in order,
and either the `ValueError` text or the `(success, throttled)` flags of
the returned dict. -/
structure FeedCall where
  effects : List FeedEffect
  outcome : Except String (Bool × Bool)
deriving Repr

/-- `ThreatIntelligenceManager.update_feed(feed_name, force)`.
`registered` is `feed_name in self.feeds`; `last_update` is the recorded
metadata timestamp (as a datetime; `none` when absent); `downloadOk`
models whether the HTTP download succeeds. The code: raise `ValueError`
for an unknown feed; then, unless `force`, return a throttled result when
`now - last_update < 3h`; then download; then replace the indicators and
write the feed metadata. -/
def update_feed (registered : Bool) (last_update : Option Int) (now : Int)
    (force : Bool) (downloadOk : Bool) : FeedCall :=
  if !registered then
    ⟨[], Except.error "Feed not found"⟩
  else
    let throttled :=
      if !force then
        match last_update with
        | some lu => decide (now - lu < 10800)
        | none => false
      else false
    if throttled then ⟨[], Except.ok (false, true)⟩
    else if !downloadOk then ⟨[FeedEffect.download], Except.ok (false, false)⟩
    else ⟨[FeedEffect.download, FeedEffect.replaceIndicators, FeedEffect.writeMeta],
          Except.ok (true, false)⟩

/-! ### Packet capture (`src/packet_capture.py` lines 178-220) -/

/-- A decoded frame as seen by `_process_traffic_packet`: which L4 layer
is present, ports, addresses, length and capture time. -/
structure CapturedPacket where
  has_tcp : Bool
  has_udp : Bool
  sport : Nat
  dport : Nat
  src : String
  dst : String
  size : Nat
  ts : Nat
deriving DecidableEq, Repr

/-- `PacketCapture._process_traffic_packet`: extract protocol and ports
(TCP preferred over UDP, as in the if/elif), return early when protocol
or destination port is falsy, drop the packet when a port list is
configured and the destination port is not in it, else hand the traffic
dict to the callback (modelled as the returned value). An unconfigured
port list (`None` or empty) is modelled as `[]`, which Python treats
identically (both falsy). -/
def process_traffic_packet (ports : List Nat) (p : CapturedPacket) : Option TrafficData :=
  let protocol : Option String :=
    if p.has_tcp then some "TCP" else if p.has_udp then some "UDP" else none
  let source_port : Option Nat :=
    if p.has_tcp then some p.sport else if p.has_udp then some p.sport else none
  let dest_port : Option Nat :=
    if p.has_tcp then some p.dport else if p.has_udp then some p.dport else none
  if !(truthyStr protocol && truthyNat dest_port) then none
  else if !ports.isEmpty && !(ports.contains p.dport) then none
  else some ⟨some p.src, some p.dst, dest_port, source_port, protocol, p.size, p.ts⟩

/-! ## Helper lemmas -/

/-- A find over the key-preserving row update of `insert_dns_lookup`
rewrites the found row. -/
theorem findDnsLookup_map_update (d q : String) (ips : List String) (ts : Int) :
    ∀ (st : DnsStore) (r0 : DnsLookupRow), findDnsLookup st d q = some r0 →
      findDnsLookup (st.map (fun r =>
        if r.domain = d ∧ r.query_type = q then { r with resolved_ips := ips, last_seen := ts }
        else r)) d q
        = some { r0 with resolved_ips := ips, last_seen := ts }
  | [], r0, h => by simp [findDnsLookup] at h
  | r :: rest, r0, h => by
    by_cases hk : r.domain = d ∧ r.query_type = q
    · have hr0 : r = r0 := by
        have := h
        unfold findDnsLookup at this
        rw [if_pos hk] at this
        exact Option.some.inj this
      subst hr0
      unfold findDnsLookup
      simp only [List.map_cons, if_pos hk]
    · have htail : findDnsLookup rest d q = some r0 := by
        have := h
        unfold findDnsLookup at this
        rwa [if_neg hk] at this
      have ih := findDnsLookup_map_update d q ips ts rest r0 htail
      unfold findDnsLookup
      simp only [List.map_cons, if_neg hk]
      exact ih

/-- When no entry of the cache fails, the flush loop folds every upsert
and reports completion. -/
theorem flushEntries_all_ok (fails : FlowKey → Bool) :
    ∀ (cache : List (FlowKey × FlowData)) (st : FlowStore),
      (∀ e ∈ cache, fails e.1 = false) →
      flushEntries fails cache st
        = (cache.foldl (fun s e => upsertTrafficFlowCounters s e.1 e.2) st, true)
  | [], _, _ => rfl
  | e :: rest, st, h => by
    have he : fails e.1 = false := h e (List.mem_cons_self e rest)
    have ih := flushEntries_all_ok fails rest (upsertTrafficFlowCounters st e.1 e.2)
      (fun x hx => h x (List.mem_cons_of_mem e hx))
    simp [flushEntries, he, ih]

/-- When some entry of the cache fails, the flush loop reports failure. -/
theorem flushEntries_some_fail (fails : FlowKey → Bool) :
    ∀ (cache : List (FlowKey × FlowData)) (st : FlowStore),
      (∃ e ∈ cache, fails e.1 = true) →
      (flushEntries fails cache st).2 = false
  | [], _, h => by simp at h
  | e :: rest, st, h => by
    by_cases he : fails e.1 = true
    · simp [flushEntries, he]
    · have : ∃ x ∈ rest, fails x.1 = true := by
        rcases h with ⟨x, hx, hfx⟩
        rcases List.mem_cons.mp hx with rfl | hx2
        · exact absurd hfx he
        · exact ⟨x, hx2, hfx⟩
      have ih := flushEntries_some_fail fails rest (upsertTrafficFlowCounters st e.1 e.2) this
      unfold flushEntries
      rw [if_neg he]
      exact ih

/-- `maxByFirstSeen` returns `none` exactly on the empty list. -/
theorem maxByFirstSeen_eq_none_iff (l : DnsStore) :
    maxByFirstSeen l = none ↔ l = [] := by
  cases l with
  | nil => simp [maxByFirstSeen]
  | cons x rest =>
    simp only [maxByFirstSeen]
    cases maxByFirstSeen rest with
    | none => simp
    | some m => by_cases h : m.first_seen ≤ x.first_seen <;> simp [h]

/-- The row selected by `ORDER BY first_seen DESC LIMIT 1` is a member of
the result list. -/
theorem maxByFirstSeen_mem :
    ∀ (l : DnsStore) (r : DnsLookupRow), maxByFirstSeen l = some r → r ∈ l
  | [], r, h => by simp [maxByFirstSeen] at h
  | x :: rest, r, h => by
    unfold maxByFirstSeen at h
    cases hrec : maxByFirstSeen rest with
    | none =>
      rw [hrec] at h
      have h2 : some x = some r := h
      exact (Option.some.inj h2) ▸ List.mem_cons_self x rest
    | some m =>
      rw [hrec] at h
      have h2 : (if m.first_seen ≤ x.first_seen then some x else some m) = some r := h
      by_cases hle : m.first_seen ≤ x.first_seen
      · rw [if_pos hle] at h2
        exact (Option.some.inj h2) ▸ List.mem_cons_self x rest
      · rw [if_neg hle] at h2
        exact List.mem_cons_of_mem x ((Option.some.inj h2) ▸ maxByFirstSeen_mem rest m hrec)

/-- The row selected by `ORDER BY first_seen DESC LIMIT 1` has maximal
`first_seen` in the result list. -/
theorem maxByFirstSeen_max :
    ∀ (l : DnsStore) (r : DnsLookupRow), maxByFirstSeen l = some r →
      ∀ x ∈ l, x.first_seen ≤ r.first_seen
  | [], _, h => by simp [maxByFirstSeen] at h
  | x :: rest, r, h => by
    intro y hy
    unfold maxByFirstSeen at h
    cases hrec : maxByFirstSeen rest with
    | none =>
      rw [hrec] at h
      have h2 : some x = some r := h
      have hx : x = r := Option.some.inj h2
      rcases List.mem_cons.mp hy with rfl | hy2
      · exact hx ▸ le_refl _
      · have hnil : rest = [] := (maxByFirstSeen_eq_none_iff rest).mp hrec
        exact absurd (hnil ▸ hy2) (List.not_mem_nil y)
    | some m =>
      rw [hrec] at h
      have h2 : (if m.first_seen ≤ x.first_seen then some x else some m) = some r := h
      have hall := maxByFirstSeen_max rest m hrec
      by_cases hle : m.first_seen ≤ x.first_seen
      · rw [if_pos hle] at h2
        have hx : x = r := Option.some.inj h2
        rcases List.mem_cons.mp hy with rfl | hy2
        · exact hx ▸ le_refl _
        · exact hx ▸ le_trans (hall y hy2) hle
      · rw [if_neg hle] at h2
        have hm : m = r := Option.some.inj h2
        rcases List.mem_cons.mp hy with rfl | hy2
        · exact hm ▸ le_of_not_le hle
        · exact hm ▸ hall y hy2

/-! ## Claim theorems -/

/-- C6 (confirmed): for every `(domain, qtype)` key, a later
`insert_dns_lookup` for an existing row replaces `resolved_ips` and sets
`last_seen` to the upsert timestamp but leaves the stored `first_seen`
intact — the conflict branch shared by both store backends never writes
`first_seen`. -/
theorem insert_dns_lookup_preserves_first_seen (st : DnsStore) (d q : String)
    (ips : List String) (ts : Int) (fsArg : Option Int) (r0 : DnsLookupRow)
    (h : findDnsLookup st d q = some r0) :
    findDnsLookup (insert_dns_lookup st d q ips ts fsArg) d q
      = some { r0 with resolved_ips := ips, last_seen := ts } := by
  unfold insert_dns_lookup
  rw [h]
  exact findDnsLookup_map_update d q ips ts st r0 h

/-- Witness for C6: upserting `example.com/A` a second time keeps the
original `first_seen` of 100 while replacing the answer set and moving
`last_seen` to 200. -/
theorem insert_dns_lookup_preserves_first_seen_witness :
    findDnsLookup (insert_dns_lookup [⟨"example.com", "A", ["1.2.3.4"], 100, 100⟩]
        "example.com" "A" ["5.6.7.8"] 200 (some 200)) "example.com" "A"
      = some ⟨"example.com", "A", ["5.6.7.8"], 100, 200⟩ :=
  insert_dns_lookup_preserves_first_seen [⟨"example.com", "A", ["1.2.3.4"], 100, 100⟩]
    "example.com" "A" ["5.6.7.8"] 200 (some 200)
    ⟨"example.com", "A", ["1.2.3.4"], 100, 100⟩ (by decide)

/-- C9 (confirmed): when any of the five required `traffic_data` fields
is missing, `None`, empty or zero, `process_packet` leaves the flow cache
unchanged (the truthiness guard returns before any cache mutation). -/
theorem process_packet_ignores_falsy_fields (now : Nat) (td : TrafficData) (cache : FlowCache)
    (h : truthyStr td.source_ip = false ∨ truthyStr td.destination_ip = false
       ∨ truthyNat td.destination_port = false ∨ truthyNat td.source_port = false
       ∨ truthyStr td.protocol = false) :
    processPacket now td cache = cache := by
  unfold processPacket
  rcases h with h | h | h | h | h <;> simp [h]

/-- Witness for C9: a packet with source port 0 is discarded and the
cache stays empty. -/
theorem process_packet_ignores_falsy_fields_witness :
    processPacket 1 ⟨some "192.168.1.5", some "8.8.8.8", some 443, some 0, some "TCP", 100, 1⟩ [] = [] :=
  process_packet_ignores_falsy_fields 1
    ⟨some "192.168.1.5", some "8.8.8.8", some 443, some 0, some "TCP", 100, 1⟩ [] (by decide)

/-- C10 (confirmed): `update_feed` on an unregistered feed name raises
`ValueError` first, before any download and before any indicator or
metadata write — the effect list is empty. -/
theorem update_feed_unknown_name_error (last_update : Option Int) (now : Int)
    (force downloadOk : Bool) :
    update_feed false last_update now force downloadOk = ⟨[], Except.error "Feed not found"⟩ := rfl

/-- C7 (confirmed): for a feed with a recorded `last_update`, a
non-forced `update_feed` yields the throttled result — with no download
and no indicator change — exactly when `now - last_update < 3h`; with
`force = true` the left side never holds. -/
theorem update_feed_throttled_iff_within_three_hours (lu now : Int) (force downloadOk : Bool) :
    update_feed true (some lu) now force downloadOk = ⟨[], Except.ok (false, true)⟩
      ↔ (force = false ∧ now - lu < 10800) := by
  unfold update_feed
  cases force with
  | false =>
    by_cases hlt : now - lu < 10800
    · simp [hlt]
    · cases downloadOk <;> simp [hlt]
  | true =>
    cases downloadOk <;> simp

/-- Witness for C7: at 3h − 1s the update throttles; at exactly 3h and
under `force` it does not. -/
theorem update_feed_throttled_iff_within_three_hours_witness :
    update_feed true (some 0) 10799 false true = ⟨[], Except.ok (false, true)⟩
    ∧ update_feed true (some 0) 10800 false true ≠ ⟨[], Except.ok (false, true)⟩
    ∧ update_feed true (some 0) 10799 true true ≠ ⟨[], Except.ok (false, true)⟩ :=
  ⟨(update_feed_throttled_iff_within_three_hours 0 10799 false true).mpr ⟨rfl, by decide⟩,
   fun h => absurd ((update_feed_throttled_iff_within_three_hours 0 10800 false true).mp h).2
     (by decide),
   fun h => Bool.noConfusion ((update_feed_throttled_iff_within_three_hours 0 10799 true true).mp h).1⟩

/-- C8 (confirmed): with a non-empty configured port list, the traffic
callback receives a packet only when its destination port is in the
list. -/
theorem traffic_callback_only_configured_ports (ports : List Nat) (p : CapturedPacket)
    (td : TrafficData) (hports : ports ≠ [])
    (h : process_traffic_packet ports p = some td) :
    ports.contains p.dport = true ∧ td.destination_port = some p.dport := by
  unfold process_traffic_packet at h
  have hne : ports.isEmpty = false := by
    cases ports with
    | nil => exact absurd rfl hports
    | cons a l => rfl
  by_cases htcp : p.has_tcp = true
  · by_cases hdz : p.dport = 0
    · simp [htcp, hdz, truthyStr, truthyNat] at h
    · simp [htcp, hdz, hne, truthyStr, truthyNat] at h
      exact ⟨List.elem_iff.mpr h.2.1, by rw [← h.2.2]⟩
  · by_cases hudp : p.has_udp = true
    · by_cases hdz : p.dport = 0
      · simp [htcp, hudp, hdz, truthyStr, truthyNat] at h
      · simp [htcp, hudp, hdz, hne, truthyStr, truthyNat] at h
        exact ⟨List.elem_iff.mpr h.2.1, by rw [← h.2.2]⟩
    · simp [htcp, hudp, truthyStr] at h

/-- Witness for C8: with port list containing only 443, a TCP packet to
port 443 reaches the callback and its destination port is in the list. -/
theorem traffic_callback_only_configured_ports_witness :
    ([443] : List Nat).contains 443 = true
    ∧ (⟨some "1.2.3.4", some "5.6.7.8", some 443, some 50000, some "TCP", 100, 1⟩ :
        TrafficData).destination_port = some 443 :=
  traffic_callback_only_configured_ports [443] ⟨true, false, 50000, 443, "1.2.3.4", "5.6.7.8", 100, 1⟩
    ⟨some "1.2.3.4", some "5.6.7.8", some 443, some 50000, some "TCP", 100, 1⟩
    (by decide) (by decide)

/-- C1 (corrected, holds for the PostgreSQL backend): when the flush-time
binding calls `get_domain_by_ip` with `before_timestamp` equal to the
flow's `first_seen` and a domain comes back, some stored row carries that
domain, contains the ip, has `last_seen` inside the lookback window, has
`first_seen ≤` the flow's `first_seen` — so a DNS answer first seen after
the flow start is never returned — and its `first_seen` is maximal among
all eligible rows (the ordering key, so "most recent first_seen" wins). -/
theorem pg_get_domain_by_ip_respects_flow_start (st : DnsStore) (now days t : Int)
    (ip dname : String)
    (h : pg_get_domain_by_ip st now days ip (some t) = some dname) :
    ∃ r ∈ st, r.domain = dname ∧ r.resolved_ips.contains ip = true
      ∧ now - days * 86400 ≤ r.last_seen ∧ r.first_seen ≤ t
      ∧ ∀ x ∈ st, pgDomainEligible ip (now - days * 86400) (some t) x = true →
          x.first_seen ≤ r.first_seen := by
  unfold pg_get_domain_by_ip at h
  rw [Option.map_eq_some'] at h
  obtain ⟨r, hmax, hdom⟩ := h
  have hmem := maxByFirstSeen_mem _ r hmax
  have helig : pgDomainEligible ip (now - days * 86400) (some t) r = true :=
    (List.mem_filter.mp hmem).2
  have hin : r ∈ st := (List.mem_filter.mp hmem).1
  have hparts : r.resolved_ips.contains ip = true
      ∧ (now - days * 86400 ≤ r.last_seen) ∧ (r.first_seen ≤ t) := by
    unfold pgDomainEligible at helig
    simp only [Bool.and_eq_true, decide_eq_true_eq] at helig
    exact ⟨helig.1.1, helig.1.2, helig.2⟩
  refine ⟨r, hin, hdom, hparts.1, hparts.2.1, hparts.2.2, ?_⟩
  intro x hx hxelig
  exact maxByFirstSeen_max _ r hmax x (List.mem_filter.mpr ⟨hx, hxelig⟩)

/-- Witness for C1: on a store holding an early row (first_seen 3) and a
late row (first_seen 20) for the same ip, a lookup bounded by flow start
5 returns the early domain, and the guarantees of the theorem hold
there. -/
theorem pg_get_domain_by_ip_respects_flow_start_witness :
    ∃ r ∈ ([⟨"early.test", "A", ["203.0.113.7"], 3, 50⟩,
            ⟨"late.test", "A", ["203.0.113.7"], 20, 20⟩] : DnsStore),
      r.domain = "early.test" ∧ r.resolved_ips.contains "203.0.113.7" = true
      ∧ (60 : Int) - 7 * 86400 ≤ r.last_seen ∧ r.first_seen ≤ 5
      ∧ ∀ x ∈ ([⟨"early.test", "A", ["203.0.113.7"], 3, 50⟩,
                ⟨"late.test", "A", ["203.0.113.7"], 20, 20⟩] : DnsStore),
          pgDomainEligible "203.0.113.7" ((60 : Int) - 7 * 86400) (some 5) x = true →
            x.first_seen ≤ r.first_seen :=
  pg_get_domain_by_ip_respects_flow_start
    [⟨"early.test", "A", ["203.0.113.7"], 3, 50⟩, ⟨"late.test", "A", ["203.0.113.7"], 20, 20⟩]
    60 7 5 "203.0.113.7" "early.test" (by decide)

/-- Counterexample for C1 as stated: the SQLite backend's
`get_domain_by_ip` accepts no upper bound at all, so on a store whose
only row for the ip has `first_seen = 20` it returns that domain even for
a flow first seen at 5 — a DNS answer later than the flow start is
returned, refuting the claim for "every store backend". -/
theorem sqlite_get_domain_by_ip_returns_late_dns :
    sqlite_get_domain_by_ip [⟨"late.test", "A", ["203.0.113.7"], 20, 20⟩] 60 7 "203.0.113.7"
      = some "late.test"
    ∧ (⟨"late.test", "A", ["203.0.113.7"], 20, 20⟩ : DnsLookupRow).first_seen = 20
    ∧ ¬((20 : Int) ≤ 5) := by
  refine ⟨by decide, rfl, by decide⟩

/-- C2 (corrected): `_flush_cache` clears the cache only after a flush in
which every upsert succeeded, in which case each entry is written exactly
once (the fold of the upserts); when any upsert raises, the whole cache —
including entries whose upsert already succeeded in that flush — is kept
and re-upserted at the next flush. -/
theorem flush_cache_retries_whole_cache (fails : FlowKey → Bool) (cache : FlowCache)
    (st : FlowStore) :
    ((∀ e ∈ cache, fails e.1 = false) →
      flushCache fails cache st
        = (cache.foldl (fun s e => upsertTrafficFlowCounters s e.1 e.2) st, []))
    ∧ ((∃ e ∈ cache, fails e.1 = true) → (flushCache fails cache st).2 = cache) := by
  constructor
  · intro hok
    unfold flushCache
    rw [flushEntries_all_ok fails cache st hok]
  · intro hbad
    have h2 := flushEntries_some_fail fails cache st hbad
    unfold flushCache
    obtain ⟨st2, hst2⟩ : ∃ st2, flushEntries fails cache st = (st2, false) :=
      ⟨(flushEntries fails cache st).1, by
        rw [← h2]⟩
    rw [hst2]

/-- Witness for C2: a one-entry cache flushes into the fold when nothing
fails, and survives untouched when the upsert fails. -/
theorem flush_cache_retries_whole_cache_witness :
    flushCache (fun _ => false) [(⟨"a", "b", 1, "TCP"⟩, ⟨5, 0, 1, 0, 0, false⟩)] []
      = ([(⟨"a", "b", 1, "TCP"⟩, ⟨5, 0, 1, 0, 0, false⟩)].foldl
          (fun s e => upsertTrafficFlowCounters s e.1 e.2) [], [])
    ∧ (flushCache (fun _ => true) [(⟨"a", "b", 1, "TCP"⟩, ⟨5, 0, 1, 0, 0, false⟩)] []).2
      = [(⟨"a", "b", 1, "TCP"⟩, ⟨5, 0, 1, 0, 0, false⟩)] :=
  ⟨(flush_cache_retries_whole_cache (fun _ => false)
      [(⟨"a", "b", 1, "TCP"⟩, ⟨5, 0, 1, 0, 0, false⟩)] []).1 (by decide),
   (flush_cache_retries_whole_cache (fun _ => true)
      [(⟨"a", "b", 1, "TCP"⟩, ⟨5, 0, 1, 0, 0, false⟩)] []).2 (by decide)⟩

/-- Counterexample for C2 as stated: two outbound packets to different
servers fill the cache; the first flush writes the first entry and then
fails on the second, keeping the whole cache; the next flush succeeds —
after which the first flow's stored row holds 200 bytes and 2 packets
although only one 100-byte packet was ever accepted for it. -/
theorem flush_cache_error_double_counts :
    (let k1 : FlowKey := ⟨"192.168.1.5", "8.8.8.8", 443, "TCP"⟩
     let k2 : FlowKey := ⟨"192.168.1.5", "9.9.9.9", 443, "TCP"⟩
     let cache := processPacket 10
       ⟨some "192.168.1.5", some "9.9.9.9", some 443, some 50000, some "TCP", 100, 10⟩
       (processPacket 10
         ⟨some "192.168.1.5", some "8.8.8.8", some 443, some 50000, some "TCP", 100, 10⟩ [])
     let step1 := flushCache (fun k => decide (k = k2)) cache []
     let step2 := flushCache (fun _ => false) step1.2 step1.1
     cacheFind? cache k1 = some ⟨100, 0, 1, 10, 10, false⟩
       ∧ storeFind? step2.1 k1 = some ⟨200, 0, 2⟩
       ∧ step2.2 = []) := by
  decide

/-- Helper: the exact-match indicator query returns nothing when no row
of the store matches type `ip` and the queried value. -/
theorem check_threat_indicator_ip_eq_none (ipstr : String) :
    ∀ (st : List ThreatIndicator),
      (∀ r ∈ st, r.indicator_type = "ip" → r.ip ≠ some ipstr) →
      check_threat_indicator_ip st ipstr = none
  | [], _ => rfl
  | r :: rest, h => by
    have hr : ¬(r.indicator_type = "ip" ∧ r.ip = some ipstr) := by
      rintro ⟨h1, h2⟩
      exact h r (List.mem_cons_self r rest) h1 h2
    unfold check_threat_indicator_ip
    rw [if_neg hr]
    exact check_threat_indicator_ip_eq_none ipstr rest
      (fun x hx => h x (List.mem_cons_of_mem r hx))

/-- C3 (code_bug): on a LAN-internal packet 192.168.1.2:80 → 192.168.1.3:443
where neither port is ephemeral (the case the in-code comment "use lower
port as server" and the spec's rule 4 describe), the code makes the
lower-port side the client, so the canonical key's `server_port` is 443 —
the higher of the two ports — not the claimed `min(src_port, dst_port)`. -/
theorem lan_tiebreak_picks_higher_port_eval :
    processPacket 50 ⟨some "192.168.1.2", some "192.168.1.3", some 443, some 80, some "TCP", 100, 50⟩ []
      = [(⟨"192.168.1.2", "192.168.1.3", 443, "TCP"⟩, ⟨100, 0, 1, 50, 50, false⟩)]
    ∧ is_local_ip "192.168.1.2" = true ∧ is_local_ip "192.168.1.3" = true
    ∧ (443 : Nat) = max 80 443 ∧ (443 : Nat) ≠ min 80 443 := by
  decide

/-- Counterexample for C4 as stated: `check_ip` has no private-address
guard, so when the indicator store itself contains the RFC1918 address
10.0.0.1, `check_ip` returns that indicator rather than `None`. -/
theorem check_ip_matches_private_ip_in_store :
    is_local_ip "10.0.0.1" = true
    ∧ check_ip [⟨"Custom", "ip", none, some "10.0.0.1"⟩] "10.0.0.1"
        = some ⟨"Custom", "ip", none, some "10.0.0.1"⟩ := by
  decide

/-- C4 (corrected): `check_ip` is a pure exact match against the
indicator store after normalisation; it returns `None` on a private
(local) IP exactly because — as with the bundled feed parsers, which
filter non-public IPs before storage — the store holds no ip-indicator
equal to its normalised text, not because of any unconditional guard. -/
theorem check_ip_none_without_matching_indicator (st : List ThreatIndicator) (s : String)
    (ipq : IPv4) (hparse : parseIPv4? s = some ipq) (hlocal : ipv4IsLocal ipq = true)
    (hstore : ∀ r ∈ st, r.indicator_type = "ip" → r.ip ≠ some (ipv4ToString ipq)) :
    check_ip st s = none := by
  unfold check_ip
  rw [hparse]
  exact check_threat_indicator_ip_eq_none (ipv4ToString ipq) st hstore

/-- Witness for C4: a store holding only the public indicator 1.2.3.4
yields no match for the private address 10.0.0.1. -/
theorem check_ip_none_without_matching_indicator_witness :
    check_ip [⟨"URLhaus", "ip", none, some "1.2.3.4"⟩] "10.0.0.1" = none :=
  check_ip_none_without_matching_indicator [⟨"URLhaus", "ip", none, some "1.2.3.4"⟩]
    "10.0.0.1" ⟨10, 0, 0, 1⟩ (by decide) (by decide) (by decide)

/-- Counterexample for C5 as stated: for the WAN↔WAN conversation
8.8.8.8:5000 → 1.1.1.1:443 followed by the reverse packet
1.1.1.1:443 → 8.8.8.8:5000, the abnormal branch keys the reverse packet
as a new flow (1.1.1.1, 8.8.8.8, 5000, TCP): the two packets do not
accumulate under one key and the second lands in `bytes_sent` of the
second flow, with the first flow's `bytes_received` still 0. -/
theorem abnormal_reverse_packet_new_key :
    processPacket 12 ⟨some "1.1.1.1", some "8.8.8.8", some 5000, some 443, some "TCP", 200, 12⟩
        (processPacket 11 ⟨some "8.8.8.8", some "1.1.1.1", some 443, some 5000, some "TCP", 100, 11⟩ [])
      = [(⟨"8.8.8.8", "1.1.1.1", 443, "TCP"⟩, ⟨100, 0, 1, 11, 11, true⟩),
         (⟨"1.1.1.1", "8.8.8.8", 5000, "TCP"⟩, ⟨200, 0, 1, 12, 12, true⟩)] := by
  decide

/-- C5 (corrected): for every abnormal (WAN↔WAN) conversation
A:p → B:q then B:q → A:p, both packets take the abnormal branch with
src = client, so the reverse packet is accounted as a *separate* flow
keyed (B, A, p, protocol) with its size in that flow's `bytes_sent`; the
original flow (A, B, q, protocol) keeps `bytes_received = 0`. -/
theorem abnormal_reverse_packet_separate_flow (A B proto : String) (p q s1 s2 t1 t2 n1 n2 : Nat)
    (hA : is_local_ip A = false) (hB : is_local_ip B = false) (hAB : A ≠ B)
    (hAne : A.isEmpty = false) (hBne : B.isEmpty = false) (hprotone : proto.isEmpty = false)
    (hp : p ≠ 0) (hq : q ≠ 0) :
    processPacket n2 ⟨some B, some A, some p, some q, some proto, s2, t2⟩
        (processPacket n1 ⟨some A, some B, some q, some p, some proto, s1, t1⟩ [])
      = [(⟨A, B, q, proto⟩, ⟨s1, 0, 1, t1, n1, true⟩),
         (⟨B, A, p, proto⟩, ⟨s2, 0, 1, t2, n2, true⟩)] := by
  have hp' : (p != 0) = true := by simp [hp]
  have hq' : (q != 0) = true := by simp [hq]
  have h1 : processPacket n1 ⟨some A, some B, some q, some p, some proto, s1, t1⟩ []
      = [(⟨A, B, q, proto⟩, ⟨s1, 0, 1, t1, n1, true⟩)] := by
    unfold processPacket
    simp [truthyStr, truthyNat, hAne, hBne, hprotone, hp', hq', hA, hB, cacheFind?, cacheUpdate]
  rw [h1]
  unfold processPacket
  simp [truthyStr, truthyNat, hAne, hBne, hprotone, hp', hq', hA, hB, cacheFind?, cacheUpdate,
    FlowKey.mk.injEq, hAB, Ne.symm hAB]

/-- Witness for C5: the generic separate-flow account instantiated at the
counterexample conversation. -/
theorem abnormal_reverse_packet_separate_flow_witness :
    processPacket 12 ⟨some "1.1.1.1", some "8.8.8.8", some 5000, some 443, some "TCP", 200, 12⟩
        (processPacket 11 ⟨some "8.8.8.8", some "1.1.1.1", some 443, some 5000, some "TCP", 100, 11⟩ [])
      = [(⟨"8.8.8.8", "1.1.1.1", 443, "TCP"⟩, ⟨100, 0, 1, 11, 11, true⟩),
         (⟨"1.1.1.1", "8.8.8.8", 5000, "TCP"⟩, ⟨200, 0, 1, 12, 12, true⟩)] :=
  abnormal_reverse_packet_separate_flow "8.8.8.8" "1.1.1.1" "TCP" 5000 443 100 200 11 12 11 12
    (by decide) (by decide) (by decide) (by decide) (by decide) (by decide)
    (by decide) (by decide)
